import Mathlib

/-!
Verification of the iterative research-loop controller of the
ollama-multi-agent-research repository.

The embedding models Python strings as lists of characters (`Str`), so that
slicing (`take`/`drop`), substring search (`findSub`, mirroring `str.find`)
and joining (`joinNL`, mirroring `"\n".join`) are explicit executable
functions.  External effects (the language-model call, HTTP search calls,
SMTP) are out of scope per the design document: each graph node is embedded
as a function of the data it actually inspects, with the provider/model
response passed in as an argument.  Fallible Python code (statements that can
raise) is embedded with `Option`/`Except`.
-/

/-- Python strings, modelled as lists of characters. -/
abbrev Str := List Char

/-- Mirrors Python `haystack.find(pat)`: index of the first occurrence of
`pat` in the string, `none` when absent (Python returns `-1` there; every
call site in the embedded code is guarded so the two renderings agree). -/
def findSub (pat : Str) : Str → Option Nat
  | [] => if pat.isPrefixOf ([] : Str) then some 0 else none
  | c :: t => if pat.isPrefixOf (c :: t) then some 0 else (findSub pat t).map (· + 1)

/-- Mirrors Python `"\n".join(l)`. -/
def joinNL : List Str → Str
  | [] => []
  | [s] => s
  | s :: t :: rest => s ++ '\n' :: joinNL (t :: rest)

/-- Mirrors Python `s.strip()`: drop whitespace from both ends. -/
def stripWs (s : Str) : Str :=
  ((s.dropWhile Char.isWhitespace).reverse.dropWhile Char.isWhitespace).reverse

/-- Specification observer (not from the source): split a string at
newline characters into its lines, the way a reader of the final artifact
sees them.  `splitLines s` is never empty and satisfies
`joinNL (splitLines s) = s`. -/
def splitLines : Str → List Str
  | [] => [[]]
  | c :: t =>
    let rest := splitLines t
    if c = '\n' then [] :: rest
    else (c :: rest.headD []) :: rest.tail

/-- One search result as normalized by every provider (`utils.py`):
a dict with keys `title`, `url`, `content` and optional `raw_content`.
`raw_content = none` covers both a missing key and an explicit `None`
(the formatting code replaces both by the empty string). -/
structure Source where
  title : Str
  url : Str
  content : Str
  raw_content : Option Str
deriving DecidableEq

/-- The fields of `SummaryState` (`state.py`) that the embedded nodes read
and write. -/
structure SummaryState where
  research_topic : Str
  search_query : Str
  research_loop_count : Nat
  web_research_results : List Str
  youtube_research_results : List Str
  sources_gathered : List Str
  running_summary : Str
deriving DecidableEq

/-- An empty state, for concrete instances. -/
def emptyState : SummaryState :=
  { research_topic := [], search_query := [], research_loop_count := 0,
    web_research_results := [], youtube_research_results := [],
    sources_gathered := [], running_summary := [] }

/-- The URL-keyed deduplication of `deduplicate_and_format_sources`
(`utils.py` lines 34-38): a dict keyed by `url` is filled in encounter
order, first occurrence winning; its values are read back in insertion
order.  `seen` is the set of keys already in the dict. -/
def dedupByUrl (seen : List Str) : List Source → List Source
  | [] => []
  | s :: rest =>
    if s.url ∈ seen then dedupByUrl seen rest
    else s :: dedupByUrl (s.url :: seen) rest

/-- The raw-content truncation of `deduplicate_and_format_sources`
(`utils.py` lines 47-55): `char_limit = max_tokens_per_source * 4`,
missing/None raw content becomes the empty string, and content longer than
the limit is cut to `raw_content[:char_limit] + "... [truncated]"`. -/
def truncatedRaw (max_tokens_per_source : Nat) (source : Source) : Str :=
  let char_limit := max_tokens_per_source * 4
  let raw_content := source.raw_content.getD []
  if raw_content.length > char_limit
  then raw_content.take char_limit ++ "... [truncated]".data
  else raw_content

/-- One formatted block of `deduplicate_and_format_sources`
(`utils.py` lines 42-56), for a single already-deduplicated source. -/
def formatSourceBlock (max_tokens_per_source : Nat) (include_raw_content : Bool)
    (source : Source) : Str :=
  "Source ".data ++ source.title ++ ":\n===\n".data
    ++ "URL: ".data ++ source.url ++ "\n===\n".data
    ++ "Most relevant content from source: ".data ++ source.content ++ "\n===\n".data
    ++ (if include_raw_content then
          "Full source content limited to ".data
            ++ (toString max_tokens_per_source).data ++ " tokens: ".data
            ++ truncatedRaw max_tokens_per_source source ++ "\n\n".data
        else [])

/-- `deduplicate_and_format_sources` (`utils.py` lines 7-58) applied to an
already-extracted result list: deduplicate by URL, render each block after
the `"Sources:\n\n"` header, and strip the result. -/
def deduplicate_and_format_sources (sources_list : List Source)
    (max_tokens_per_source : Nat) (include_raw_content : Bool) : Str :=
  stripWs ("Sources:\n\n".data
    ++ ((dedupByUrl [] sources_list).map
          (formatSourceBlock max_tokens_per_source include_raw_content)).flatten)

/-- `format_sources` (`utils.py` lines 60-72): one bullet line
`"* {title} : {url}"` per (non-deduplicated) source, joined by newlines. -/
def format_sources (results : List Source) : Str :=
  joinNL (results.map (fun source => "* ".data ++ source.title ++ " : ".data ++ source.url))

/-- Specification observer (not from the source): the first source of a
list carrying a given URL, used to state first-occurrence-wins. -/
def firstWithUrl (u : Str) : List Source → Option Source
  | [] => none
  | s :: rest => if s.url = u then some s else firstWithUrl u rest

/-- The opening think-marker `"<think>"` of `summarize_sources`. -/
def thinkOpen : Str := "<think>".data

/-- The closing think-marker `"</think>"` of `summarize_sources`. -/
def thinkClose : Str := "</think>".data

/-- The guard of the stripping loop in `summarize_sources` (`graph.py`
line 152): both `"<think>"` and `"</think>"` occur in the string. -/
def thinkCond (s : Str) : Bool :=
  (findSub thinkOpen s).isSome && (findSub thinkClose s).isSome

/-- One execution of the loop body of `summarize_sources` (`graph.py`
lines 153-155): `start = s.find("<think>")`,
`end = s.find("</think>") + len("</think>")`, `s = s[:start] + s[end:]`.
When either marker is absent the guard prevents the body from running, so
the identity rendering of those cases is never reached. -/
def stripStep (s : Str) : Str :=
  match findSub thinkOpen s, findSub thinkClose s with
  | some start, some close => s.take start ++ s.drop (close + thinkClose.length)
  | _, _ => s

/-- The `while` loop of `summarize_sources` (`graph.py` lines 152-155),
unfolded with explicit fuel: `some r` means the loop exited with value `r`
within `fuel` iterations, `none` means it was still running. -/
def stripThinkLoop : Nat → Str → Option Str
  | 0, s => if thinkCond s then none else some s
  | fuel + 1, s => if thinkCond s then stripThinkLoop fuel (stripStep s) else some s

/-- `reflect_on_summary` (`graph.py` lines 161-186), as a function of the
parse outcome of the model response: `parsed = none` models a
`result.content` on which `json.loads` raises (or that is not a JSON
object, so `.get` raises), `some none` a parsed object whose
`follow_up_query` field is absent, `some (some q)` a parsed object whose
field holds the string `q` (`if not query` is true exactly for the empty
string there).  `Except.error` models the exception propagating. -/
def reflect_on_summary (research_topic : Str) (parsed : Option (Option Str)) :
    Except Unit Str :=
  match parsed with
  | none => Except.error ()
  | some none => Except.ok ("Tell me more about ".data ++ research_topic)
  | some (some query) =>
    if query = [] then Except.ok ("Tell me more about ".data ++ research_topic)
    else Except.ok query

/-- `finalize_summary` (`graph.py` lines 189-197):
`all_sources = "\n".join(state.sources_gathered)` and the summary is
rewritten to the f-string
`"## Summary\n\n{summary}\n\n### Sources:\n{all_sources}"`. -/
def finalize_summary (state : SummaryState) : SummaryState :=
  { state with running_summary :=
      "## Summary\n\n".data ++ state.running_summary
        ++ "\n\n### Sources:\n".data ++ joinNL state.sources_gathered }

/-- `youtube_research` (`graph.py` lines 94-110), as a function of the
configured key and of the provider response (the `youtube_search` HTTP call
is external).  `if not configurable.youtube_api_key` is true for a missing
key (`none`) and for an empty string; the node then raises `ValueError`
(modelled by `Except.error` with the message).  Otherwise it appends the
formatted block and the citation list to the state. -/
def youtube_research (youtube_api_key : Option Str) (youtube_results : List Source)
    (state : SummaryState) : Except Str SummaryState :=
  match youtube_api_key with
  | none => Except.error "YouTube API key not configured in Configuration.".data
  | some key =>
    if key = [] then Except.error "YouTube API key not configured in Configuration.".data
    else Except.ok { state with
      youtube_research_results := state.youtube_research_results
        ++ [deduplicate_and_format_sources youtube_results 500 true],
      sources_gathered := state.sources_gathered ++ [format_sources youtube_results] }

/-- `route_research` (`graph.py` lines 230-239): continue with
`"web_research"` when `research_loop_count <= max_web_research_loops`,
otherwise `"finalize_summary"`. -/
def route_research (state : SummaryState) (max_web_research_loops : Nat) : String :=
  if state.research_loop_count ≤ max_web_research_loops then "web_research"
  else "finalize_summary"

/-- The default citation list of `perplexity_search` (`utils.py` line 145),
used when the response has no `citations` field. -/
def perplexityDefaultCitations : List Str := ["https://perplexity.ai".data]

/-- The title f-string of `perplexity_search`:
`"Perplexity Search {loop+1}, Source {i}"`. -/
def perplexityTitle (perplexity_search_loop_count i : Nat) : Str :=
  "Perplexity Search ".data ++ (toString (perplexity_search_loop_count + 1)).data
    ++ ", Source ".data ++ (toString i).data

/-- The `for i, citation in enumerate(citations[1:], start=2)` loop of
`perplexity_search` (`utils.py` lines 156-162): each later citation becomes
a source with placeholder content and no raw content. -/
def perplexityTail (perplexity_search_loop_count : Nat) : Nat → List Str → List Source
  | _, [] => []
  | i, citation :: rest =>
    { title := perplexityTitle perplexity_search_loop_count i,
      url := citation,
      content := "See above for full content".data,
      raw_content := none }
      :: perplexityTail perplexity_search_loop_count (i + 1) rest

/-- `perplexity_search` (`utils.py` lines 97-164), as a function of the
parsed response body: `content` is
`data["choices"][0]["message"]["content"]`, and `citationsField` is the
`citations` entry of the response (`none` when absent, in which case
`data.get` substitutes the default list).  `citations[0]` raises
`IndexError` when the list is empty; that is the `none` result. -/
def perplexity_search (content : Str) (citationsField : Option (List Str))
    (perplexity_search_loop_count : Nat) : Option (List Source) :=
  let citations := citationsField.getD perplexityDefaultCitations
  match citations with
  | [] => none
  | c0 :: rest =>
    some ({ title := perplexityTitle perplexity_search_loop_count 1,
            url := c0, content := content, raw_content := some content }
          :: perplexityTail perplexity_search_loop_count 2 rest)

/-- `splitLines` never returns the empty list. -/
theorem splitLines_ne_nil (s : Str) : splitLines s ≠ [] := by
  cases s with
  | nil => simp [splitLines]
  | cons c t =>
    simp only [splitLines]
    split <;> simp

/-- Splitting at a newline boundary splits the line lists. -/
theorem splitLines_append (a b : Str) :
    splitLines (a ++ '\n' :: b) = splitLines a ++ splitLines b := by
  induction a with
  | nil => simp [splitLines]
  | cons c t ih =>
    by_cases hc : c = '\n'
    · subst hc
      simp [splitLines, ih]
    · obtain ⟨l, ls, h⟩ : ∃ l ls, splitLines t = l :: ls := by
        cases h : splitLines t with
        | nil => exact absurd h (splitLines_ne_nil t)
        | cons l ls => exact ⟨l, ls, rfl⟩
      simp [splitLines, hc, ih, h]

/-- A leading newline contributes an empty first line. -/
theorem splitLines_cons_nl (b : Str) : splitLines ('\n' :: b) = [] :: splitLines b := by
  simp [splitLines]

/-- A newline-free string is a single line. -/
theorem splitLines_eq_single (s : Str) (h : '\n' ∉ s) : splitLines s = [s] := by
  induction s with
  | nil => simp [splitLines]
  | cons c t ih =>
    simp only [List.mem_cons, not_or] at h
    have hc : ¬ c = '\n' := fun hc => h.1 hc.symm
    simp [splitLines, hc, ih h.2]

/-- Joining newline-free lines and splitting again recovers them. -/
theorem splitLines_joinNL : ∀ l : List Str, l ≠ [] → (∀ s ∈ l, '\n' ∉ s) →
    splitLines (joinNL l) = l
  | [], hne, _ => absurd rfl hne
  | [s], _, h => by
      have h1 : joinNL [s] = s := rfl
      rw [h1, splitLines_eq_single s (h s (by simp))]
  | s :: u :: rest, _, h => by
      have h1 : joinNL (s :: u :: rest) = s ++ '\n' :: joinNL (u :: rest) := rfl
      rw [h1, splitLines_append, splitLines_eq_single s (h s (by simp)),
        splitLines_joinNL (u :: rest) (by simp)
          (fun x hx => h x (List.mem_cons_of_mem _ hx))]
      rfl

/-- A source kept by the URL-keyed dict was not already keyed. -/
theorem dedupByUrl_url_not_seen (l : List Source) :
    ∀ seen s, s ∈ dedupByUrl seen l → s.url ∉ seen := by
  induction l with
  | nil => intro seen s h; simp [dedupByUrl] at h
  | cons x rest ih =>
    intro seen s h
    by_cases hx : x.url ∈ seen
    · simp only [dedupByUrl, if_pos hx] at h
      exact ih seen s h
    · simp only [dedupByUrl, if_neg hx] at h
      rcases List.mem_cons.mp h with h1 | h1
      · subst h1; exact hx
      · intro hs
        exact ih _ s h1 (List.mem_cons_of_mem _ hs)

/-- The kept sources carry pairwise distinct URLs. -/
theorem dedupByUrl_pairwise (l : List Source) :
    ∀ seen, (dedupByUrl seen l).Pairwise (fun a b => a.url ≠ b.url) := by
  induction l with
  | nil => intro seen; simp [dedupByUrl]
  | cons x rest ih =>
    intro seen
    by_cases hx : x.url ∈ seen
    · simp only [dedupByUrl, if_pos hx]
      exact ih seen
    · simp only [dedupByUrl, if_neg hx]
      refine List.Pairwise.cons ?_ (ih _)
      intro b hb
      have hnb := dedupByUrl_url_not_seen rest _ b hb
      exact fun he => hnb (by rw [← he]; exact List.mem_cons_self _ _)

/-- Every kept source is the first source of the input with its URL. -/
theorem firstWithUrl_dedup (l : List Source) :
    ∀ seen s, s ∈ dedupByUrl seen l → firstWithUrl s.url l = some s := by
  induction l with
  | nil => intro seen s h; simp [dedupByUrl] at h
  | cons x rest ih =>
    intro seen s h
    by_cases hx : x.url ∈ seen
    · simp only [dedupByUrl, if_pos hx] at h
      have h2 : s.url ∉ seen := dedupByUrl_url_not_seen rest seen s h
      have hne : ¬ x.url = s.url := fun he => h2 (he ▸ hx)
      simp only [firstWithUrl, if_neg hne]
      exact ih seen s h
    · simp only [dedupByUrl, if_neg hx] at h
      rcases List.mem_cons.mp h with h1 | h1
      · subst h1
        simp [firstWithUrl]
      · have h2 : s.url ∉ x.url :: seen := dedupByUrl_url_not_seen rest _ s h1
        have hne : ¬ x.url = s.url :=
          fun he => h2 (by rw [← he]; exact List.mem_cons_self _ _)
        simp only [firstWithUrl, if_neg hne]
        exact ih _ s h1

/-- Conversely, the first source with any URL not yet keyed is kept. -/
theorem firstWithUrl_mem_dedup (l : List Source) :
    ∀ seen u s, u ∉ seen → firstWithUrl u l = some s → s ∈ dedupByUrl seen l := by
  induction l with
  | nil => intro seen u s _ h; simp [firstWithUrl] at h
  | cons x rest ih =>
    intro seen u s hu h
    by_cases he : x.url = u
    · simp only [firstWithUrl, if_pos he] at h
      have hxs : x = s := Option.some.inj h
      subst hxs
      have hx : x.url ∉ seen := fun hs => hu (he ▸ hs)
      simp only [dedupByUrl, if_neg hx]
      exact List.mem_cons_self _ _
    · simp only [firstWithUrl, if_neg he] at h
      by_cases hx : x.url ∈ seen
      · simp only [dedupByUrl, if_pos hx]
        exact ih seen u s hu h
      · simp only [dedupByUrl, if_neg hx]
        refine List.mem_cons_of_mem _ (ih _ u s ?_ h)
        simp only [List.mem_cons, not_or]
        exact ⟨fun hh => he hh.symm, hu⟩

/-- Every source built by the trailing-citations loop of
`perplexity_search` carries the placeholder content and no raw content. -/
theorem perplexityTail_content (loop : Nat) :
    ∀ (l : List Str) (i : Nat) (s : Source), s ∈ perplexityTail loop i l →
      s.content = "See above for full content".data ∧ s.raw_content = none := by
  intro l
  induction l with
  | nil => intro i s h; simp [perplexityTail] at h
  | cons c rest ih =>
    intro i s h
    simp only [perplexityTail] at h
    rcases List.mem_cons.mp h with h1 | h1
    · subst h1; exact ⟨rfl, rfl⟩
    · exact ih (i + 1) s h1

/-- When the stripping loop exits, its guard is false. -/
theorem stripThinkLoop_guard_false : ∀ (fuel : Nat) (s r : Str),
    stripThinkLoop fuel s = some r → thinkCond r = false := by
  intro fuel
  induction fuel with
  | zero =>
    intro s r h
    rw [stripThinkLoop] at h
    by_cases hc : thinkCond s = true
    · rw [if_pos hc] at h
      exact Option.noConfusion h
    · rw [if_neg hc] at h
      have hsr : s = r := Option.some.inj h
      subst hsr
      simpa using hc
  | succ n ih =>
    intro s r h
    rw [stripThinkLoop] at h
    by_cases hc : thinkCond s = true
    · rw [if_pos hc] at h
      exact ih _ r h
    · rw [if_neg hc] at h
      have hsr : s = r := Option.some.inj h
      subst hsr
      simpa using hc

/-- A string on which the guard is already false passes through unchanged. -/
theorem stripThinkLoop_of_guard_false (fuel : Nat) (s : Str) (h : thinkCond s = false) :
    stripThinkLoop fuel s = some s := by
  cases fuel <;> simp [stripThinkLoop, h]

/-- Claim C1: for every state and every configured ceiling, `route_research`
returns `"web_research"` exactly when `research_loop_count` is at most
`max_web_research_loops`, and `"finalize_summary"` otherwise; in particular
with a ceiling of 1, loop counts 0 and 1 continue and loop count 2
finalizes. -/
theorem c1_route_research :
    (∀ (st : SummaryState) (maxLoops : Nat),
      (route_research st maxLoops = "web_research"
        ↔ st.research_loop_count ≤ maxLoops) ∧
      (route_research st maxLoops = "finalize_summary"
        ↔ ¬ st.research_loop_count ≤ maxLoops)) ∧
    route_research { emptyState with research_loop_count := 0 } 1 = "web_research" ∧
    route_research { emptyState with research_loop_count := 1 } 1 = "web_research" ∧
    route_research { emptyState with research_loop_count := 2 } 1 = "finalize_summary" := by
  refine ⟨?_, by decide, by decide, by decide⟩
  intro st maxLoops
  by_cases h : st.research_loop_count ≤ maxLoops
  · rw [route_research, if_pos h]
    exact ⟨⟨fun _ => h, fun _ => rfl⟩,
      ⟨fun he => absurd he (by decide), fun hn => absurd h hn⟩⟩
  · rw [route_research, if_neg h]
    exact ⟨⟨fun he => absurd he (by decide), fun hle => absurd hle h⟩,
      ⟨fun _ => h, fun _ => rfl⟩⟩

/-- Claim C2, as stated, is false: for the model response `"a<think>b"`,
which contains `"<think>"` but no `"</think>"`, the stripping loop exits at
once and the stored summary still contains the unterminated `"<think>"`
marker. -/
theorem c2_counterexample :
    stripThinkLoop 5 "a<think>b".data = some "a<think>b".data ∧
    (findSub thinkOpen "a<think>b".data).isSome = true ∧
    findSub thinkClose "a<think>b".data = none := by
  refine ⟨?_, by decide, by decide⟩
  decide

/-- Claim C2 (amended): whenever the stripping loop of `summarize_sources`
terminates, the stored summary never contains `"<think>"` and `"</think>"`
simultaneously (a single unmatched marker may survive), and a response
missing either marker — in particular one with no marker at all — is stored
unchanged. -/
theorem c2_think_stripping (fuel : Nat) (s r : Str)
    (h : stripThinkLoop fuel s = some r) :
    thinkCond r = false ∧
    (findSub thinkOpen s = none → r = s) ∧
    (findSub thinkClose s = none → r = s) := by
  refine ⟨stripThinkLoop_guard_false fuel s r h, ?_, ?_⟩
  · intro ho
    have hc : thinkCond s = false := by simp [thinkCond, ho]
    rw [stripThinkLoop_of_guard_false fuel s hc] at h
    exact (Option.some.inj h).symm
  · intro ho
    have hc : thinkCond s = false := by simp [thinkCond, ho]
    rw [stripThinkLoop_of_guard_false fuel s hc] at h
    exact (Option.some.inj h).symm

/-- Witness for C2: on `"<think>x</think>keep<think>y</think>"` the loop
exits within two passes with `"keep"`, which holds no marker at all. -/
theorem c2_think_stripping_witness :
    thinkCond "keep".data = false ∧
    (findSub thinkOpen "<think>x</think>keep<think>y</think>".data = none
      → "keep".data = "<think>x</think>keep<think>y</think>".data) ∧
    (findSub thinkClose "<think>x</think>keep<think>y</think>".data = none
      → "keep".data = "<think>x</think>keep<think>y</think>".data) :=
  c2_think_stripping 2 "<think>x</think>keep<think>y</think>".data "keep".data (by decide)

/-- Claim C3 is refuted by the code: on the response `"</think><think>"`,
whose first `"</think>"` precedes its first `"<think>"`, the loop guard
holds yet the body reproduces the string unchanged
(`start = 8`, `end = 8`), so the `while` loop of `summarize_sources` never
exits: no amount of fuel makes the loop terminate. -/
theorem c3_strip_nonterminating :
    stripStep "</think><think>".data = "</think><think>".data ∧
    thinkCond "</think><think>".data = true ∧
    ∀ fuel, stripThinkLoop fuel "</think><think>".data = none := by
  refine ⟨by decide, by decide, ?_⟩
  intro fuel
  induction fuel with
  | zero =>
    rw [stripThinkLoop, if_pos (by decide : thinkCond "</think><think>".data = true)]
  | succ n ih =>
    rw [stripThinkLoop, if_pos (by decide : thinkCond "</think><think>".data = true),
      (by decide : stripStep "</think><think>".data = "</think><think>".data)]
    exact ih

/-- The first example source of the deduplication scenario:
url `"a"`, title `"A1"`. -/
def exA1 : Source :=
  { title := "A1".data, url := "a".data, content := "ca".data, raw_content := none }

/-- The second example source: url `"b"`, title `"B"`. -/
def exB : Source :=
  { title := "B".data, url := "b".data, content := "cb".data, raw_content := none }

/-- The third example source, a duplicate of url `"a"` under title `"A2"`. -/
def exA2 : Source :=
  { title := "A2".data, url := "a".data, content := "cc".data, raw_content := none }

set_option maxRecDepth 20000 in
/-- Claim C4: `deduplicate_and_format_sources` removes duplicates keyed by
`url`, keeping the first occurrence in encounter order: the kept sources
have pairwise distinct URLs, each kept source is the first input source
with its URL, every URL present in the input is represented, and on the
example list the output consists of exactly the two blocks titled `A1` and
`B` — the text `A2` appears nowhere in it. -/
theorem c4_deduplicate_first_wins :
    (∀ l : List Source, (dedupByUrl [] l).Pairwise (fun a b => a.url ≠ b.url)) ∧
    (∀ (l : List Source) (s : Source),
      s ∈ dedupByUrl [] l → firstWithUrl s.url l = some s) ∧
    (∀ (l : List Source) (u : Str) (s : Source),
      firstWithUrl u l = some s → s ∈ dedupByUrl [] l) ∧
    dedupByUrl [] [exA1, exB, exA2] = [exA1, exB] ∧
    deduplicate_and_format_sources [exA1, exB, exA2] 100 false
      = stripWs ("Sources:\n\n".data ++ formatSourceBlock 100 false exA1
          ++ formatSourceBlock 100 false exB) ∧
    (findSub "Source A1:".data
      (deduplicate_and_format_sources [exA1, exB, exA2] 100 false)).isSome = true ∧
    (findSub "Source B:".data
      (deduplicate_and_format_sources [exA1, exB, exA2] 100 false)).isSome = true ∧
    findSub "A2".data (deduplicate_and_format_sources [exA1, exB, exA2] 100 false)
      = none := by
  refine ⟨fun l => dedupByUrl_pairwise l [],
    fun l s h => firstWithUrl_dedup l [] s h,
    fun l u s h => firstWithUrl_mem_dedup l [] u s (by simp) h,
    by decide, by decide, by decide, by decide, by decide⟩

/-- Witness for C4: on the example list, the first source with url `"a"`
is the one titled `"A1"`, and it is indeed the one kept. -/
theorem c4_witness : exA1 ∈ dedupByUrl [] [exA1, exB, exA2] :=
  c4_deduplicate_first_wins.2.2.1 [exA1, exB, exA2] "a".data exA1 (by decide)

/-- Claim C5: when raw-content inclusion is requested and the raw content
is longer than `max_tokens_per_source * 4` characters, the formatted block
ends with exactly the first `max_tokens_per_source * 4` characters of the
raw content followed by the truncation marker: the retained piece is
`raw.take (max_tokens_per_source * 4)`, a prefix of `raw` of length
exactly `max_tokens_per_source * 4`. -/
theorem c5_raw_truncation (max_tokens_per_source : Nat) (source : Source) (raw : Str)
    (hraw : source.raw_content = some raw)
    (hlen : raw.length > max_tokens_per_source * 4) :
    formatSourceBlock max_tokens_per_source true source
      = "Source ".data ++ source.title ++ ":\n===\n".data
        ++ "URL: ".data ++ source.url ++ "\n===\n".data
        ++ "Most relevant content from source: ".data ++ source.content ++ "\n===\n".data
        ++ "Full source content limited to ".data
        ++ (toString max_tokens_per_source).data ++ " tokens: ".data
        ++ (raw.take (max_tokens_per_source * 4) ++ "... [truncated]".data)
        ++ "\n\n".data ∧
    (raw.take (max_tokens_per_source * 4)).length = max_tokens_per_source * 4 ∧
    raw.take (max_tokens_per_source * 4) ++ raw.drop (max_tokens_per_source * 4)
      = raw := by
  refine ⟨?_, ?_, List.take_append_drop _ _⟩
  · simp [formatSourceBlock, truncatedRaw, hraw, hlen]
  · rw [List.length_take]
    exact Nat.min_eq_left (Nat.le_of_lt hlen)

/-- The example source for the truncation scenario: 100 characters of raw
content. -/
def exLong : Source :=
  { title := "L".data, url := "l".data, content := "cl".data,
    raw_content := some (List.replicate 100 'x') }

/-- Witness for C5: with a token budget of 10 (40 characters) and 100
characters of raw content, exactly the first 40 characters survive, marker
appended. -/
theorem c5_witness :
    formatSourceBlock 10 true exLong
      = "Source ".data ++ exLong.title ++ ":\n===\n".data
        ++ "URL: ".data ++ exLong.url ++ "\n===\n".data
        ++ "Most relevant content from source: ".data ++ exLong.content ++ "\n===\n".data
        ++ "Full source content limited to ".data
        ++ (toString 10).data ++ " tokens: ".data
        ++ ((List.replicate 100 'x').take (10 * 4) ++ "... [truncated]".data)
        ++ "\n\n".data ∧
    ((List.replicate 100 'x').take (10 * 4)).length = 10 * 4 ∧
    (List.replicate 100 'x').take (10 * 4) ++ (List.replicate 100 'x').drop (10 * 4)
      = List.replicate 100 'x' :=
  c5_raw_truncation 10 exLong (List.replicate 100 'x') rfl (by decide)

/-- Claim C6, as stated, is false: for a reflection response that does not
parse as JSON, `reflect_on_summary` lets the `json.loads` exception
propagate instead of returning the fallback query — here for the topic
`"quantum dots"` no fallback (indeed no result at all) is produced. -/
theorem c6_counterexample :
    reflect_on_summary "quantum dots".data none = Except.error () ∧
    ∀ q, reflect_on_summary "quantum dots".data none ≠ Except.ok q :=
  ⟨rfl, fun _ h => Except.noConfusion h⟩

/-- Claim C6 (amended): when the response parses as a JSON object,
`reflect_on_summary` never raises: an absent or empty `follow_up_query`
field yields exactly the fallback `"Tell me more about {topic}"`, and a
non-empty field is returned as the next query; a response that does not
parse raises and aborts. -/
theorem c6_reflection_fallback (research_topic : Str) (q : Str) :
    reflect_on_summary research_topic none = Except.error () ∧
    reflect_on_summary research_topic (some none)
      = Except.ok ("Tell me more about ".data ++ research_topic) ∧
    reflect_on_summary research_topic (some (some []))
      = Except.ok ("Tell me more about ".data ++ research_topic) ∧
    (q ≠ [] → reflect_on_summary research_topic (some (some q)) = Except.ok q) := by
  refine ⟨rfl, rfl, rfl, fun hq => ?_⟩
  simp [reflect_on_summary, hq]

/-- Witness for C6: with topic `"quantum dots"`, an absent field yields
exactly `"Tell me more about quantum dots"` and a non-empty field is
passed through. -/
theorem c6_reflection_fallback_witness :
    reflect_on_summary "quantum dots".data (some none)
      = Except.ok "Tell me more about quantum dots".data ∧
    reflect_on_summary "quantum dots".data (some (some "gap query".data))
      = Except.ok "gap query".data := by
  refine ⟨?_, (c6_reflection_fallback "quantum dots".data "gap query".data).2.2.2 (by decide)⟩
  rw [(c6_reflection_fallback "quantum dots".data "gap query".data).2.1]
  exact congrArg Except.ok (by decide)

/-- Claim C7, as stated, is false: with no configured YouTube API key the
node raises `ValueError` rather than skipping — the run fails. -/
theorem c7_counterexample :
    youtube_research none [] emptyState
      = Except.error "YouTube API key not configured in Configuration.".data ∧
    ∀ st, youtube_research none [] emptyState ≠ Except.ok st :=
  ⟨rfl, fun _ h => Except.noConfusion h⟩

/-- Claim C7 (amended): when `youtubeApiKey` is absent (or empty, both
falsy) `youtube_research` raises
`ValueError("YouTube API key not configured in Configuration.")` before
performing any search, failing the run; with a non-empty key it appends
the formatted block and the citation list to the state. -/
theorem c7_youtube_key_required (youtube_results : List Source)
    (state : SummaryState) (key : Str) :
    youtube_research none youtube_results state
      = Except.error "YouTube API key not configured in Configuration.".data ∧
    youtube_research (some []) youtube_results state
      = Except.error "YouTube API key not configured in Configuration.".data ∧
    (key ≠ [] → youtube_research (some key) youtube_results state
      = Except.ok { state with
          youtube_research_results := state.youtube_research_results
            ++ [deduplicate_and_format_sources youtube_results 500 true],
          sources_gathered := state.sources_gathered
            ++ [format_sources youtube_results] }) := by
  refine ⟨rfl, rfl, fun hk => ?_⟩
  simp [youtube_research, hk]

/-- Witness for C7: a non-empty key lets the node proceed and append. -/
theorem c7_youtube_key_required_witness :
    youtube_research (some "KEY".data) [exA1] emptyState
      = Except.ok { emptyState with
          youtube_research_results := emptyState.youtube_research_results
            ++ [deduplicate_and_format_sources [exA1] 500 true],
          sources_gathered := emptyState.sources_gathered
            ++ [format_sources [exA1]] } :=
  (c7_youtube_key_required [exA1] emptyState "KEY".data).2.2 (by decide)

/-- Claim C8: `finalize_summary` is a pure function of the state and
rewrites the summary into the fixed shape header + body + Sources section;
seen as lines, the output is the `"## Summary"` header, a blank line, the
summary body, a blank line, the `"### Sources:"` heading, and then every
entry of `sources_gathered` in collection order — duplicates included. -/
theorem c8_finalize_shape (state : SummaryState) :
    (finalize_summary state).running_summary
      = "## Summary\n\n".data ++ state.running_summary
        ++ "\n\n### Sources:\n".data ++ joinNL state.sources_gathered ∧
    (state.sources_gathered ≠ [] → (∀ s ∈ state.sources_gathered, '\n' ∉ s) →
      splitLines (finalize_summary state).running_summary
        = "## Summary".data :: ([] : Str)
            :: (splitLines state.running_summary
              ++ ([] : Str) :: "### Sources:".data :: state.sources_gathered)) := by
  refine ⟨rfl, fun hne hnl => ?_⟩
  have h2 : (finalize_summary state).running_summary
      = "## Summary".data ++ '\n' :: '\n'
          :: (state.running_summary ++ '\n' :: '\n'
            :: ("### Sources:".data ++ '\n' :: joinNL state.sources_gathered)) := by
    have ha : "## Summary\n\n".data = "## Summary".data ++ ['\n', '\n'] := by decide
    have hb : "\n\n### Sources:\n".data
        = ['\n', '\n'] ++ ("### Sources:".data ++ ['\n']) := by decide
    simp [finalize_summary, ha, hb]
  rw [h2, splitLines_append, splitLines_cons_nl, splitLines_append,
    splitLines_cons_nl, splitLines_append,
    splitLines_eq_single "## Summary".data (by decide),
    splitLines_eq_single "### Sources:".data (by decide),
    splitLines_joinNL state.sources_gathered hne hnl]
  simp

/-- Witness for C8: a state with a duplicated citation entry keeps both
copies in the final Sources section, in order. -/
theorem c8_finalize_shape_witness :
    splitLines (finalize_summary { emptyState with
        running_summary := "body".data,
        sources_gathered := ["* T : u".data, "* T : u".data] }).running_summary
      = "## Summary".data :: ([] : Str)
          :: (splitLines "body".data
            ++ ([] : Str) :: "### Sources:".data
              :: ["* T : u".data, "* T : u".data]) :=
  (c8_finalize_shape { emptyState with
      running_summary := "body".data,
      sources_gathered := ["* T : u".data, "* T : u".data] }).2
    (by decide) (by decide)

/-- The bullet line of `format_sources` contains no newline when neither
the title nor the URL does. -/
theorem bullet_no_nl (s : Source) (ht : '\n' ∉ s.title) (hu : '\n' ∉ s.url) :
    '\n' ∉ ("* ".data ++ s.title ++ " : ".data ++ s.url) := by
  intro hmem
  simp only [List.append_assoc, List.mem_append] at hmem
  rcases hmem with h1 | h2 | h3 | h4
  · exact absurd h1 (by decide)
  · exact ht h2
  · exact absurd h3 (by decide)
  · exact hu h4

/-- Splitting the output of `format_sources` recovers one bullet line per
input source, in order. -/
theorem format_sources_splitLines (results : List Source) (hne : results ≠ [])
    (h : ∀ s ∈ results, '\n' ∉ s.title ∧ '\n' ∉ s.url) :
    splitLines (format_sources results)
      = results.map (fun s => "* ".data ++ s.title ++ " : ".data ++ s.url) := by
  rw [format_sources]
  apply splitLines_joinNL
  · simp only [ne_eq, List.map_eq_nil_iff]
    exact hne
  · intro x hx
    rw [List.mem_map] at hx
    obtain ⟨s, hs, rfl⟩ := hx
    exact bullet_no_nl s (h s hs).1 (h s hs).2

/-- Claim C9: `format_sources` emits exactly one bullet line
`"* {title} : {url}"` per source, joined by newlines — the lines of its
output are exactly the bullets of the input sources in order — and the
citation entries of two gathering calls over lists of sizes 2 and 3
contribute exactly 5 lines to the joined sources section, with no
cross-call deduplication. -/
theorem c9_format_sources_lines (results l1 l2 : List Source)
    (hne : results ≠ [])
    (h : ∀ s ∈ results, '\n' ∉ s.title ∧ '\n' ∉ s.url)
    (h1 : ∀ s ∈ l1, '\n' ∉ s.title ∧ '\n' ∉ s.url) (h1len : l1.length = 2)
    (h2 : ∀ s ∈ l2, '\n' ∉ s.title ∧ '\n' ∉ s.url) (h2len : l2.length = 3) :
    splitLines (format_sources results)
      = results.map (fun s => "* ".data ++ s.title ++ " : ".data ++ s.url) ∧
    (splitLines (joinNL [format_sources l1, format_sources l2])).length = 5 := by
  refine ⟨format_sources_splitLines results hne h, ?_⟩
  have e : joinNL [format_sources l1, format_sources l2]
      = format_sources l1 ++ '\n' :: format_sources l2 := rfl
  have hne1 : l1 ≠ [] := by
    intro hh; rw [hh] at h1len; simp at h1len
  have hne2 : l2 ≠ [] := by
    intro hh; rw [hh] at h2len; simp at h2len
  rw [e, splitLines_append, format_sources_splitLines l1 hne1 h1,
    format_sources_splitLines l2 hne2 h2]
  simp [h1len, h2len]

/-- Witness for C9: a singleton list yields its single bullet line, and
source lists of sizes 2 and 3 — sharing URLs across the two calls — still
contribute 5 citation lines in total. -/
theorem c9_format_sources_lines_witness :
    splitLines (format_sources [exA1])
      = [exA1].map (fun s => "* ".data ++ s.title ++ " : ".data ++ s.url) ∧
    (splitLines (joinNL [format_sources [exA1, exB],
        format_sources [exA1, exB, exA2]])).length = 5 :=
  c9_format_sources_lines [exA1] [exA1, exB] [exA1, exB, exA2]
    (by decide) (by decide) (by decide) (by decide) (by decide) (by decide)

/-- Claim C10, as stated, is false: a provider response that parses fine
but carries an explicitly empty `citations` list makes `perplexity_search`
raise `IndexError` on `citations[0]` — no results list at all is
returned, let alone one with at least one entry. -/
theorem c10_counterexample :
    perplexity_search "answer".data (some []) 0 = none ∧
    ¬ ∃ rs, perplexity_search "answer".data (some []) 0 = some rs := by
  refine ⟨rfl, ?_⟩
  rintro ⟨rs, h⟩
  rw [(rfl : perplexity_search "answer".data (some []) 0 = none)] at h
  exact Option.noConfusion h

/-- Claim C10 (amended): whenever `perplexity_search` returns a results
list (that is, whenever the citations list — the response's or the
default — is non-empty), the list is non-empty, its first entry carries
the answer text as both `content` and `raw_content` and the first citation
as its `url`, and every later entry has content
`"See above for full content"` and no raw content. -/
theorem c10_perplexity_results (content : Str) (citationsField : Option (List Str))
    (perplexity_search_loop_count : Nat) (rs : List Source)
    (h : perplexity_search content citationsField perplexity_search_loop_count
      = some rs) :
    rs ≠ [] ∧
    (∀ s, rs.head? = some s →
      s.content = content ∧ s.raw_content = some content ∧
      some s.url = (citationsField.getD perplexityDefaultCitations).head?) ∧
    (∀ s ∈ rs.tail,
      s.content = "See above for full content".data ∧ s.raw_content = none) := by
  cases hc : citationsField.getD perplexityDefaultCitations with
  | nil =>
    rw [perplexity_search, hc] at h
    exact Option.noConfusion h
  | cons c0 rest =>
    rw [perplexity_search, hc] at h
    have hrs := (Option.some.inj h).symm
    subst hrs
    refine ⟨by simp, ?_, ?_⟩
    · intro s hs
      have hs2 := Option.some.inj hs
      subst hs2
      exact ⟨rfl, rfl, rfl⟩
    · intro s hs
      exact perplexityTail_content perplexity_search_loop_count rest 2 s hs

/-- Witness for C10: a parsed response with answer `"answer"` and two
citations yields a non-empty results list. -/
theorem c10_perplexity_results_witness :
    ([{ title := perplexityTitle 0 1, url := "u1".data, content := "answer".data,
        raw_content := some "answer".data },
      { title := perplexityTitle 0 2, url := "u2".data,
        content := "See above for full content".data, raw_content := none }] :
      List Source) ≠ [] :=
  (c10_perplexity_results "answer".data (some ["u1".data, "u2".data]) 0
    [{ title := perplexityTitle 0 1, url := "u1".data, content := "answer".data,
       raw_content := some "answer".data },
     { title := perplexityTitle 0 2, url := "u2".data,
       content := "See above for full content".data, raw_content := none }]
    (by decide)).1
